import Mathlib

/-!
Verification of the Landline shuttle-booking core (src/app/api/booking/route.ts,
src/lib/types.ts, the Prisma schema in the migration file) against its
natural-language specification.  The TypeScript source is shallowly embedded:
pure helpers become Lean functions, the Prisma store becomes an explicit
`Store` value, the `$transaction` body becomes a function that either returns
the updated store (commit) or an error (rollback), and the optimistic-locking
race is modelled by letting the store change between the snapshot read and the
conditional write, plus a small-step trace machine for concurrent histories.
-/

namespace Landline

/-- TripInstance.status values: the string enum active | cancelled | closed. -/
inductive TIStatus
| active
| cancelled
| closed
deriving DecidableEq

/-- Booking.status values: the string enum confirmed | cancelled. -/
inductive BStatus
| confirmed
| cancelled
deriving DecidableEq

/-- One TripInstance row (migration part_002 lines 26-36), with the
basePrice of its parent Trip inlined (the route handler reads it through the
`include: trip` join).  `availableSeats` and `version` are Int as in SQL;
REAL basePrice is modelled as an exact rational (no claim concerns rounding). -/
structure TripInstance where
  tripId : String
  availableSeats : Int
  version : Int
  capacity : Int
  status : TIStatus
  basePrice : Rat
deriving DecidableEq

/-- Passenger data of a booking request (src/lib/types.ts passengerSchema). -/
structure PassengerData where
  firstName : String
  lastName : String
  email : Option String
  phone : Option String
deriving DecidableEq

/-- The validated booking request body (src/lib/types.ts bookingSchema). -/
structure BookingReq where
  tripInstanceId : String
  passengers : List PassengerData
  contactEmail : String
  contactPhone : String
deriving DecidableEq

/-- One Booking row together with its Passenger child rows
(migration part_002 lines 39-63). -/
structure BookingRec where
  tripInstanceId : String
  bookingRef : String
  status : BStatus
  totalPrice : Rat
  contactEmail : String
  contactPhone : String
  passengers : List PassengerData
  cancelledAt : Option Nat
deriving DecidableEq

/-- The database state touched by the booking endpoint: TripInstance rows
keyed by id, and Booking rows (with passengers inlined). -/
structure Store where
  instances : List (String × TripInstance)
  bookings : List BookingRec
deriving DecidableEq

/-- tx.tripInstance.findUnique (route.ts line 56). -/
def Store.findInstance (st : Store) (id : String) : Option TripInstance :=
  (st.instances.find? (fun p => p.1 == id)).map Prod.snd

/-- The row update performed by tx.tripInstance.updateMany: replace the
record stored under `id`. -/
def Store.setInstance (st : Store) (id : String) (ti : TripInstance) : Store :=
  { st with instances := st.instances.map (fun p => if p.1 == id then (p.1, ti) else p) }

/-- tx.booking.findUnique on bookingRef (route.ts line 97): does any Booking
row carry this reference? -/
def Store.refExists (st : Store) (ref : String) : Bool :=
  st.bookings.any (fun b => b.bookingRef == ref)

/-- The reference alphabet of generateBookingRef (route.ts line 10). -/
def refChars : String := "ABCDEFGHJKLMNPQRSTUVWXYZ23456789"

/-- generateBookingRef (route.ts lines 9-16).  `rand i` models the i-th
value of Math.floor(Math.random() * chars.length); it is reduced mod the
alphabet length, which is the exact range of the source expression. -/
def generateBookingRef (rand : Nat → Nat) : String :=
  String.mk ((List.range 6).map
    (fun i => refChars.data.getD (rand i % refChars.data.length) 'A'))

/-- zod validation of one passenger (types.ts lines 16-21): firstName and
lastName nonempty; email must pass the (library-supplied, hence abstract)
`emailOk` predicate, be absent, or be the empty literal; phone is free. -/
def validPassenger (emailOk : String → Bool) (p : PassengerData) : Bool :=
  decide (1 ≤ p.firstName.length) &&
  decide (1 ≤ p.lastName.length) &&
  (match p.email with
   | none => true
   | some e => emailOk e || e == "")

/-- zod validation of the request body (types.ts lines 23-28): nonempty
tripInstanceId, at least one passenger, all passengers valid, valid
contactEmail, nonempty contactPhone. -/
def validBookingReq (emailOk : String → Bool) (r : BookingReq) : Bool :=
  decide (1 ≤ r.tripInstanceId.length) &&
  decide (1 ≤ r.passengers.length) &&
  r.passengers.all (validPassenger emailOk) &&
  emailOk r.contactEmail &&
  decide (1 ≤ r.contactPhone.length)

/-- The typed failures thrown inside the transaction body, carrying the
exact Error messages of route.ts (lines 68, 72, 76, 91) plus the
unique-constraint violation the store raises at tx.booking.create when the
reference already exists (migration part_002 line 90). -/
inductive TxError
| tripNotFound
| tripUnavailable
| insufficientSeats (available : Int)
| concurrentModification
| uniqueRefViolation
deriving DecidableEq

/-- error.message of each thrown error, as surfaced by the outer catch. -/
def TxError.message : TxError → String
| .tripNotFound => "Trip not found"
| .tripUnavailable => "Trip is no longer available"
| .insufficientSeats n => "Only " ++ toString n ++ " seats available"
| .concurrentModification => "CONCURRENT_MODIFICATION"
| .uniqueRefViolation => "Unique constraint failed on the fields: (bookingRef)"

/-- The database operations the transaction body issues, in order; used to
state where reads and writes happen inside the atomic unit. -/
inductive DbOp
| readInstance (id : String)
| updateInstanceCond (id : String) (expectedVersion : Int)
| readBookingByRef (ref : String)
| createBooking (ref : String)
deriving DecidableEq

def DbOp.isUpdate : DbOp → Bool
| .updateInstanceCond _ _ => true
| _ => false

def DbOp.isCreate : DbOp → Bool
| .createBooking _ => true
| _ => false

def DbOp.isInstanceRead : DbOp → Bool
| .readInstance _ => true
| _ => false

/-- Steps 1-4 of one attempt (route.ts lines 56-77): snapshot read and the
three checks, throwing the corresponding errors. -/
def readAndCheck (st : Store) (id : String) (k : Nat) : Except TxError TripInstance :=
  match st.findInstance id with
  | none => .error .tripNotFound
  | some ti =>
    if ti.status ≠ TIStatus.active then .error .tripUnavailable
    else if ti.availableSeats < (k : Int) then .error (.insufficientSeats ti.availableSeats)
    else .ok ti

/-- The update payload of the conditional write (route.ts lines 84-87):
availableSeats := snap.availableSeats - k and version := snap.version + 1,
written onto the current row `cur` (its other columns untouched). -/
def writeData (cur snap : TripInstance) (k : Nat) : TripInstance :=
  { cur with availableSeats := snap.availableSeats - (k : Int),
             version := snap.version + 1 }

/-- The conditional write (route.ts lines 79-88): updateMany with
`where { id, version : snap.version }`.  Returns the affected-row count and
the resulting store.  `stW` is the store at write time, which a concurrent
writer may have changed since the read. -/
def conditionalWrite (stW : Store) (id : String) (snap : TripInstance) (k : Nat) :
    Nat × Store :=
  match stW.findInstance id with
  | some cur =>
    if cur.version = snap.version then (1, stW.setInstance id (writeData cur snap k))
    else (0, stW)
  | none => (0, stW)

/-- The reference-collision loop (route.ts lines 94-103).  `gen a` is the
result of the (a+1)-th call of generateBookingRef; `fuel = 10 - attempts`.
Returns the chosen reference and the lookups performed.  Note that when all
ten checked candidates collide the loop exits with `gen 10`, which is never
checked in the loop. -/
def pickRefAux (st : Store) (gen : Nat → String) : Nat → Nat → String × List DbOp
| fuel + 1, a =>
    if st.refExists (gen a) then
      let (r, ops) := pickRefAux st gen fuel (a + 1)
      (r, DbOp.readBookingByRef (gen a) :: ops)
    else (gen a, [DbOp.readBookingByRef (gen a)])
| 0, a => (gen a, [])

/-- One execution of the prisma.$transaction body (route.ts lines 55-130).
The snapshot read happens against `stR`; by the time the conditional write
runs, concurrent committed writers may have moved the store to `stW` (the
interference point between step 1 and step 5 of the protocol).  On any
thrown error the transaction rolls back, so no store is returned; on success
the returned store carries every row change of the atomic unit.  The second
component is the ordered list of database operations issued. -/
def txAttempt (gen : Nat → String) (req : BookingReq) (stR stW : Store) :
    Except TxError (Store × BookingRec) × List DbOp :=
  let id := req.tripInstanceId
  let k := req.passengers.length
  match readAndCheck stR id k with
  | .error e => (.error e, [DbOp.readInstance id])
  | .ok ti =>
    let (cnt, st1) := conditionalWrite stW id ti k
    let ops0 := [DbOp.readInstance id, DbOp.updateInstanceCond id ti.version]
    if cnt = 0 then (.error .concurrentModification, ops0)
    else
      let (ref, refOps) := pickRefAux st1 gen 10 0
      if st1.refExists ref then
        (.error .uniqueRefViolation, ops0 ++ refOps ++ [DbOp.createBooking ref])
      else
        let b : BookingRec :=
          { tripInstanceId := id
            bookingRef := ref
            status := BStatus.confirmed
            totalPrice := ti.basePrice * (k : Rat)
            contactEmail := req.contactEmail
            contactPhone := req.contactPhone
            passengers := req.passengers
            cancelledAt := none }
        (.ok ({ st1 with bookings := b :: st1.bookings }, b),
         ops0 ++ refOps ++ [DbOp.createBooking ref])

/-- The transaction body run without interference: read and write see the
same store. -/
def txBody (gen : Nat → String) (req : BookingReq) (st : Store) :
    Except TxError (Store × BookingRec) × List DbOp :=
  txAttempt gen req st st

/-- The operations issued after the (first) conditional update. -/
def afterUpdate : List DbOp → List DbOp
| [] => []
| o :: rest => if o.isUpdate then rest else afterUpdate rest

/-- The operations issued before the (first) booking creation. -/
def beforeCreate : List DbOp → List DbOp
| [] => []
| o :: rest => if o.isCreate then [] else o :: beforeCreate rest

/-- Does the operation list contain a re-read of the inventory row strictly
between the conditional update and the booking creation?  This follows the
spec wording of the commit-time double-check (spec section 4.4), to be
compared with what the transaction body actually issues. -/
def reverifyBetween (ops : List DbOp) : Bool :=
  (beforeCreate (afterUpdate ops)).any (fun o => o.isInstanceRead)

/-- The retry loop of route.ts lines 50-141.  `att i st` is the i-th
execution of the transaction against store `st` (its outcome may reflect
concurrent writers; the interference-free instantiation is `txBody`).
`r` is the `retries` counter (initially 3; decremented only in the retry
branch, so it never reaches 0 from 3 - the `r = 0` case embeds the
`while (retries > 0 && !booking)` exit with `booking` still null).
Returns the loop outcome (`Sum.inl (some b)`: booking committed;
`Sum.inl none`: loop exited with booking null; `Sum.inr e`: error rethrown),
the resulting store, the database operations issued, and the list of delays
(ms) slept between attempts. -/
def bookingLoop (att : Nat → Store → Except TxError (Store × BookingRec) × List DbOp) :
    Nat → Nat → Store → (Option BookingRec ⊕ TxError) × Store × List DbOp × List Nat
| _, 0, st => (Sum.inl none, st, [], [])
| i, r + 1, st =>
  match att i st with
  | (.ok (st1, b), ops) => (Sum.inl (some b), st1, ops, [])
  | (.error e, ops) =>
    if e = TxError.concurrentModification ∧ 0 < r then
      let (res, st1, ops1, ds) := bookingLoop att (i + 1) r st
      (res, st1, ops ++ ops1, 100 :: ds)
    else (Sum.inr e, st, ops, [])

/-- The response the POST handler builds from the loop outcome
(route.ts lines 143-171): 200 with the reference on success, 409 with the
try-again message when the loop ends with booking null, and the outer catch
turning a thrown error into a 500 carrying error.message. -/
structure HttpResponse where
  status : Nat
  success : Bool
  error : Option String
  bookingRef : Option String
deriving DecidableEq

def responseOf : Option BookingRec ⊕ TxError → HttpResponse
| Sum.inl (some b) =>
  { status := 200, success := true, error := none, bookingRef := some b.bookingRef }
| Sum.inl none =>
  { status := 409, success := false,
    error := some "Unable to complete booking. Please try again.", bookingRef := none }
| Sum.inr e =>
  { status := 500, success := false, error := some e.message, bookingRef := none }

/-- The POST handler (route.ts lines 18-172), after body parsing: validate
with bookingSchema (returning 400 on failure before touching the store),
then run the retry loop and map its outcome to a response.  Returns the
response, the final store, and the database operations issued. -/
def POST (emailOk : String → Bool)
    (att : Nat → Store → Except TxError (Store × BookingRec) × List DbOp)
    (req : BookingReq) (st : Store) : HttpResponse × Store × List DbOp :=
  if validBookingReq emailOk req then
    let (res, st1, ops, _ds) := bookingLoop att 0 3 st
    (responseOf res, st1, ops)
  else
    ({ status := 400, success := false, error := some "Invalid request",
       bookingRef := none }, st, [])

/-!
## Concurrent trace machine

One departure's inventory row together with the bookings referencing it,
under interleaved reservation attempts.  Each attempt reads its snapshot at
some earlier moment of the history (`past`) and commits - conditional write
plus booking creation, one atomic unit - only if the stored version still
equals the snapshot version and the generated reference is not already taken
(the store's unique index on bookingRef).  Attempts whose conditional write
matches zero rows, and attempts failing a check, change nothing and are
therefore not steps.
-/

structure SysState where
  inst : TripInstance
  bookings : List BookingRec
  past : List TripInstance

/-- Sum of passenger counts over confirmed (non-cancelled) bookings. -/
def confirmedSeats : List BookingRec → Nat
| [] => 0
| b :: bs =>
  (if b.status = BStatus.confirmed then b.passengers.length else 0) + confirmedSeats bs

/-- Effect of a committed reservation: the updateMany data (snapshot-based
seat decrement and version bump, route.ts lines 84-87) applied to the
current row, the new confirmed booking prepended, and the new row published
to the history. -/
def applyReserve (s : SysState) (snap : TripInstance) (b : BookingRec) : SysState :=
  let ti := { s.inst with
    availableSeats := snap.availableSeats - (b.passengers.length : Int),
    version := snap.version + 1 }
  { inst := ti, bookings := b :: s.bookings, past := ti :: s.past }

/-- Mark one booking cancelled and stamp the cancellation time. -/
def cancelMark (b : BookingRec) (t : Nat) : BookingRec :=
  { b with status := BStatus.cancelled, cancelledAt := some t }

/-- Modelled from the spec: the cancellation operation has no implementation
in the repository source (only the booking creation endpoint exists); spec
section 4.4 defines it as "mark Booking cancelled, stamp cancellation time,
and within the same atomic unit increment the Departure Inventory's
availableSeats by the booking's passenger count and bump its version". -/
def applyCancel (s : SysState) (l1 : List BookingRec) (b : BookingRec)
    (l2 : List BookingRec) (t : Nat) : SysState :=
  let ti := { s.inst with
    availableSeats := s.inst.availableSeats + (b.passengers.length : Int),
    version := s.inst.version + 1 }
  { inst := ti,
    bookings := l1 ++ cancelMark b t :: l2,
    past := ti :: s.past }

/-- The successful mutations of one departure's state.  `reserve` carries
the snapshot the attempt read (any record published earlier in this
history), the checks of route.ts lines 67-77 evaluated on that snapshot, the
version-match condition of the conditional write, and the reference-
uniqueness condition enforced by the store's unique index at create time.
`cancel` is the spec-modelled symmetric operation on a confirmed booking. -/
inductive Step : SysState → SysState → Prop
| reserve (s : SysState) (snap : TripInstance) (b : BookingRec)
    (hsnap : snap ∈ s.past)
    (hact : snap.status = TIStatus.active)
    (hk : 1 ≤ b.passengers.length)
    (hseats : (b.passengers.length : Int) ≤ snap.availableSeats)
    (hver : snap.version = s.inst.version)
    (hconf : b.status = BStatus.confirmed)
    (href : ∀ b2 ∈ s.bookings, b2.bookingRef ≠ b.bookingRef) :
    Step s (applyReserve s snap b)
| cancel (s : SysState) (l1 : List BookingRec) (b : BookingRec) (l2 : List BookingRec)
    (t : Nat)
    (hsplit : s.bookings = l1 ++ b :: l2)
    (hconf : b.status = BStatus.confirmed) :
    Step s (applyCancel s l1 b l2 t)

/-- A freshly created departure occurrence: no bookings yet, its own record
the only one in the history. -/
def initState (ti : TripInstance) : SysState :=
  { inst := ti, bookings := [], past := [ti] }

inductive Reachable (init : SysState) : SysState → Prop
| refl : Reachable init init
| step {s s1 : SysState} : Reachable init s → Step s s1 → Reachable init s1

/-- The inductive invariant of one departure's state: seats never negative,
seats plus confirmed passengers bounded by the capacity `C`, capacity
constant, versions in the history bounded by the current version and
determining the record when equal to it, and booking references pairwise
distinct. -/
structure Inv (C : Int) (s : SysState) : Prop where
  seats_nonneg : 0 ≤ s.inst.availableSeats
  seats_booked : s.inst.availableSeats + (confirmedSeats s.bookings : Int) ≤ C
  cap_eq : s.inst.capacity = C
  past_le : ∀ p ∈ s.past, p.version ≤ s.inst.version
  past_det : ∀ p ∈ s.past, p.version = s.inst.version → p = s.inst
  refs_nodup : (s.bookings.map (fun b => b.bookingRef)).Nodup

/-- Is a transaction outcome a commit? -/
def exceptOk : Except TxError (Store × BookingRec) → Bool
| .ok _ => true
| .error _ => false

/-! Concrete sample values, used by witnesses and counterexamples. -/

def emailOkAll : String → Bool := fun _ => true

def exPassenger : PassengerData :=
  { firstName := "Ada", lastName := "Lee", email := none, phone := none }

def exReq : BookingReq :=
  { tripInstanceId := "ti1", passengers := [exPassenger],
    contactEmail := "a@b.co", contactPhone := "555" }

def exReqNoPass : BookingReq :=
  { tripInstanceId := "ti1", passengers := [],
    contactEmail := "a@b.co", contactPhone := "555" }

def exInst : TripInstance :=
  { tripId := "t1", availableSeats := 5, version := 0, capacity := 5,
    status := TIStatus.active, basePrice := 49 }

def exStore : Store := { instances := [("ti1", exInst)], bookings := [] }

def exStoreEmpty : Store := { instances := [], bookings := [] }

def exGen : Nat → String := fun _ => "AAAAAA"

/-- A departure whose status is cancelled and whose seats are exhausted. -/
def exInstZero : TripInstance :=
  { tripId := "t1", availableSeats := 0, version := 3, capacity := 5,
    status := TIStatus.cancelled, basePrice := 49 }

def exStoreZero : Store := { instances := [("ti1", exInstZero)], bookings := [] }

/-- An active departure with zero remaining seats. -/
def exInstZeroAct : TripInstance :=
  { tripId := "t1", availableSeats := 0, version := 3, capacity := 5,
    status := TIStatus.active, basePrice := 49 }

def exStoreZeroAct : Store :=
  { instances := [("ti1", exInstZeroAct)], bookings := [] }

def exBookingA : BookingRec :=
  { tripInstanceId := "ti1", bookingRef := "AAAAAA", status := BStatus.confirmed,
    totalPrice := 49, contactEmail := "a@b.co", contactPhone := "555",
    passengers := [exPassenger], cancelledAt := none }

/-- A store already holding the booking referenced AAAAAA. -/
def exStoreColl : Store :=
  { instances := [("ti1", exInst)], bookings := [exBookingA] }

/-- A reference stream whose first ten candidates all collide with AAAAAA
and whose eleventh is fresh. -/
def gen7 : Nat → String := fun i => if i < 10 then "AAAAAA" else "BBBBBB"

/-- A transaction whose conditional write always loses the race. -/
def attConflict : Nat → Store → Except TxError (Store × BookingRec) × List DbOp :=
  fun _ _ => (Except.error TxError.concurrentModification, [])

/-- A one-booking departure state for the cancellation witnesses. -/
def exSys : SysState :=
  { inst := exInst, bookings := [exBookingA], past := [exInst] }

theorem confirmedSeats_cons (b : BookingRec) (bs : List BookingRec) :
    confirmedSeats (b :: bs)
      = (if b.status = BStatus.confirmed then b.passengers.length else 0)
        + confirmedSeats bs := rfl

theorem confirmedSeats_append (l1 l2 : List BookingRec) :
    confirmedSeats (l1 ++ l2) = confirmedSeats l1 + confirmedSeats l2 := by
  induction l1 with
  | nil => simp [confirmedSeats]
  | cons b bs ih =>
    simp only [List.cons_append, confirmedSeats_cons, ih]
    omega

theorem inv_init (ti : TripInstance) (h0 : 0 ≤ ti.availableSeats)
    (h1 : ti.availableSeats ≤ ti.capacity) : Inv ti.capacity (initState ti) := by
  refine ⟨h0, ?_, rfl, ?_, ?_, by simp [initState]⟩
  · simpa [initState, confirmedSeats] using h1
  · intro p hp
    simp only [initState, List.mem_singleton] at hp
    simp [hp, initState]
  · intro p hp _
    simpa [initState] using hp

theorem inv_step {C : Int} {s s1 : SysState} (h : Inv C s) (hs : Step s s1) :
    Inv C s1 := by
  cases hs with
  | reserve snap b hsnap hact hk hseats hver hconf href =>
    have hsnapeq : snap = s.inst := h.past_det snap hsnap hver
    have hcs : confirmedSeats (b :: s.bookings)
        = b.passengers.length + confirmedSeats s.bookings := by
      simp [confirmedSeats, hconf]
    refine ⟨?_, ?_, ?_, ?_, ?_, ?_⟩
    · simp only [applyReserve]
      omega
    · simp only [applyReserve, hcs]
      have hb := h.seats_booked
      rw [hsnapeq]
      push_cast
      omega
    · simpa [applyReserve] using h.cap_eq
    · intro p hp
      simp only [applyReserve, List.mem_cons] at hp
      rcases hp with hp | hp
      · simp [hp, applyReserve]
      · have := h.past_le p hp
        simp only [applyReserve]
        omega
    · intro p hp hpv
      simp only [applyReserve, List.mem_cons] at hp
      simp only [applyReserve] at hpv
      rcases hp with hp | hp
      · simp [hp, applyReserve]
      · have := h.past_le p hp
        omega
    · simp only [applyReserve, List.map_cons]
      refine List.nodup_cons.mpr ⟨?_, h.refs_nodup⟩
      intro hmem
      rcases List.mem_map.mp hmem with ⟨b2, hb2, hb2eq⟩
      exact href b2 hb2 hb2eq
  | cancel l1 b l2 t hsplit hconf =>
    have hcsold : confirmedSeats s.bookings
        = confirmedSeats l1 + b.passengers.length + confirmedSeats l2 := by
      rw [hsplit, confirmedSeats_append]
      simp [confirmedSeats, hconf]
      omega
    have hcsnew : confirmedSeats (l1 ++ cancelMark b t :: l2)
        = confirmedSeats l1 + confirmedSeats l2 := by
      rw [confirmedSeats_append]
      simp [confirmedSeats, cancelMark]
    refine ⟨?_, ?_, ?_, ?_, ?_, ?_⟩
    · have := h.seats_nonneg
      simp only [applyCancel]
      omega
    · simp only [applyCancel, hcsnew]
      have hb := h.seats_booked
      rw [hcsold] at hb
      push_cast at hb ⊢
      omega
    · simpa [applyCancel] using h.cap_eq
    · intro p hp
      simp only [applyCancel, List.mem_cons] at hp
      rcases hp with hp | hp
      · simp [hp, applyCancel]
      · have := h.past_le p hp
        simp only [applyCancel]
        omega
    · intro p hp hpv
      simp only [applyCancel, List.mem_cons] at hp
      simp only [applyCancel] at hpv
      rcases hp with hp | hp
      · simp [hp, applyCancel]
      · have := h.past_le p hp
        omega
    · have hmaps : (l1 ++ cancelMark b t :: l2).map (fun b => b.bookingRef)
          = s.bookings.map (fun b => b.bookingRef) := by
        rw [hsplit]
        simp [cancelMark]
      simpa only [applyCancel, hmaps] using h.refs_nodup

theorem inv_reachable {C : Int} {init s : SysState} (hi : Inv C init)
    (hr : Reachable init s) : Inv C s := by
  induction hr with
  | refl => exact hi
  | step _ hs ih => exact inv_step ih hs

theorem step_version_lt {s s1 : SysState} (hs : Step s s1) :
    s.inst.version < s1.inst.version := by
  cases hs with
  | reserve snap b hsnap hact hk hseats hver hconf href =>
    simp only [applyReserve]
    omega
  | cancel l1 b l2 t hsplit hconf =>
    simp only [applyCancel]
    omega

/-- Structure of the retry loop, for any attempt sequence `att`, start index
`i`, retries counter `r` and store `st`: the number of delays is at most
`r - 1` (so at most `r` attempts run); every delay is the fixed 100ms; every
attempt before a delay failed with the concurrent-modification signal; when
the loop rethrows an error, it is exactly the error of the last attempt run;
rethrowing the conflict signal happens only with the retries budget spent;
and unless a booking was committed the store is unchanged. -/
theorem bookingLoop_spec
    (att : Nat → Store → Except TxError (Store × BookingRec) × List DbOp)
    (r : Nat) :
    ∀ (i : Nat) (st : Store) res st1 ops ds,
    bookingLoop att i r st = (res, st1, ops, ds) →
    ds.length ≤ r - 1
    ∧ (∀ d ∈ ds, d = 100)
    ∧ (∀ j, j < ds.length → (att (i + j) st).1 = Except.error TxError.concurrentModification)
    ∧ (∀ e, res = Sum.inr e → (att (i + ds.length) st).1 = Except.error e)
    ∧ (res = Sum.inr TxError.concurrentModification → ds.length = r - 1)
    ∧ ((∀ b, res ≠ Sum.inl (some b)) → st1 = st) := by
  induction r with
  | zero =>
    intro i st res st1 ops ds h
    rw [bookingLoop] at h
    simp only [Prod.mk.injEq] at h
    obtain ⟨h1, h2, h3, h4⟩ := h
    subst h1; subst h2; subst h4
    refine ⟨by simp, by simp, by simp, ?_, by simp, fun _ => rfl⟩
    intro e he
    simp at he
  | succ r ih =>
    intro i st res st1 ops ds h
    rw [bookingLoop] at h
    rcases hatt : att i st with ⟨res0, ops0⟩
    rw [hatt] at h
    cases res0 with
    | ok p =>
      obtain ⟨st2, b⟩ := p
      simp only [Prod.mk.injEq] at h
      obtain ⟨h1, h2, h3, h4⟩ := h
      subst h1; subst h2; subst h4
      refine ⟨by simp, by simp, by simp, ?_, ?_, ?_⟩
      · intro e he
        simp at he
      · intro he
        simp at he
      · intro hne
        exact absurd rfl (hne b)
    | error e =>
      by_cases hcond : e = TxError.concurrentModification ∧ 0 < r
      · rcases hrec : bookingLoop att (i + 1) r st with ⟨res1, st2, ops1, ds1⟩
        rw [hrec] at h
        simp only [if_pos hcond, Prod.mk.injEq] at h
        obtain ⟨h1, h2, h3, h4⟩ := h
        subst h1; subst h2; subst h4
        obtain ⟨ih1, ih2, ih3, ih4, ih5, ih6⟩ := ih (i + 1) st res1 st2 ops1 ds1 hrec
        refine ⟨by simp; omega, ?_, ?_, ?_, ?_, ih6⟩
        · intro d hd
          rcases List.mem_cons.mp hd with hd | hd
          · exact hd
          · exact ih2 d hd
        · intro j hj
          cases j with
          | zero =>
            rw [Nat.add_zero, hatt, hcond.1]
          | succ j =>
            have hj1 : j < ds1.length := by simpa using hj
            have : i + (j + 1) = (i + 1) + j := by omega
            rw [this]
            exact ih3 j hj1
        · intro e1 he1
          have : i + (100 :: ds1).length = (i + 1) + ds1.length := by simp; omega
          rw [this]
          exact ih4 e1 he1
        · intro he1
          have := ih5 he1
          simp only [List.length_cons, this]
          omega
      · simp only [if_neg hcond, Prod.mk.injEq] at h
        obtain ⟨h1, h2, h3, h4⟩ := h
        subst h1; subst h2; subst h4
        refine ⟨by simp, by simp, by simp, ?_, ?_, fun _ => rfl⟩
        · intro e1 he1
          cases he1
          simp [hatt]
        · intro he1
          cases he1
          have hr : ¬ 0 < r := fun hr0 => hcond ⟨rfl, hr0⟩
          simp
          omega

theorem getD_mem {α : Type} (l : List α) (n : Nat) (d : α) (h : n < l.length) :
    l.getD n d ∈ l := by
  induction l generalizing n with
  | nil => simp at h
  | cons a t ihl =>
    cases n with
    | zero => simp
    | succ n =>
      rw [List.getD_cons_succ]
      exact List.mem_cons_of_mem a (ihl n (by simpa using h))

/-- The row update of the conditional write never touches the Booking
table. -/
theorem conditionalWrite_bookings (stW : Store) (id : String) (snap : TripInstance)
    (k : Nat) : ((conditionalWrite stW id snap k).2).bookings = stW.bookings := by
  unfold conditionalWrite
  rcases h : stW.findInstance id with _ | cur
  · rfl
  · by_cases hv : cur.version = snap.version
    · simp [hv, Store.setInstance]
    · simp [hv]

theorem refExists_eq_of_bookings {s1 s2 : Store} (h : s1.bookings = s2.bookings)
    (ref : String) : s1.refExists ref = s2.refExists ref := by
  simp [Store.refExists, h]

/-- If the reference the collision loop settles on still collides, then all
ten candidates it checked collided as well. -/
theorem pickRefAux_collision (st : Store) (gen : Nat → String) :
    ∀ (fuel a : Nat), st.refExists (pickRefAux st gen fuel a).1 = true →
    ∀ j, a ≤ j → j < a + fuel → st.refExists (gen j) = true := by
  intro fuel
  induction fuel with
  | zero =>
    intro a _ j hj1 hj2
    omega
  | succ fuel ihf =>
    intro a h j hj1 hj2
    by_cases hx : st.refExists (gen a) = true
    · rcases Nat.eq_or_lt_of_le hj1 with rfl | hj
      · exact hx
      · have h1 : st.refExists (pickRefAux st gen fuel (a + 1)).1 = true := by
          simpa [pickRefAux, hx] using h
        exact ihf (a + 1) h1 j (by omega) (by omega)
    · have hpick : (pickRefAux st gen (fuel + 1) a).1 = gen a := by
        simp [pickRefAux, hx]
      rw [hpick] at h
      exact absurd h hx

/-- Every operation the collision loop issues is a booking-reference
lookup. -/
theorem pickRefAux_ops (st : Store) (gen : Nat → String) :
    ∀ (fuel a : Nat), ∀ o ∈ (pickRefAux st gen fuel a).2,
    o.isCreate = false ∧ o.isInstanceRead = false := by
  intro fuel
  induction fuel with
  | zero =>
    intro a o ho
    simp [pickRefAux] at ho
  | succ fuel ihf =>
    intro a o ho
    by_cases hx : st.refExists (gen a) = true
    · simp only [pickRefAux, hx, if_true] at ho
      rcases List.mem_cons.mp ho with rfl | ho
      · exact ⟨rfl, rfl⟩
      · exact ihf (a + 1) o ho
    · simp only [pickRefAux, hx, if_false, Bool.false_eq_true, List.mem_singleton] at ho
      subst ho
      exact ⟨rfl, rfl⟩

theorem reverifyBetween_shape (id : String) (v : Int) (refOps : List DbOp)
    (ref : String) (h : ∀ o ∈ refOps, o.isCreate = false ∧ o.isInstanceRead = false) :
    reverifyBetween (DbOp.readInstance id :: DbOp.updateInstanceCond id v ::
      (refOps ++ [DbOp.createBooking ref])) = false := by
  induction refOps with
  | nil => simp [reverifyBetween, afterUpdate, beforeCreate, DbOp.isUpdate, DbOp.isCreate]
  | cons a l ihl =>
    have ha := h a (List.mem_cons_self a l)
    have hl := fun o ho => h o (List.mem_cons_of_mem a ho)
    have ih1 := ihl hl
    simp [reverifyBetween, afterUpdate, beforeCreate, DbOp.isUpdate, ha.1, ha.2] at ih1 ⊢
    exact ih1

/-- Every execution of the transaction body begins with the fresh snapshot
read of the inventory row (route.ts line 56). -/
theorem txAttempt_ops_head (gen : Nat → String) (req : BookingReq) (stR stW : Store) :
    List.head? (txAttempt gen req stR stW).2
      = some (DbOp.readInstance req.tripInstanceId) := by
  rcases hrc : readAndCheck stR req.tripInstanceId req.passengers.length with e | ti
  · simp [txAttempt, hrc]
  · simp only [txAttempt, hrc]
    by_cases hc : (conditionalWrite stW req.tripInstanceId ti req.passengers.length).1 = 0
    · simp [hc]
    · by_cases hr :
        (conditionalWrite stW req.tripInstanceId ti req.passengers.length).2.refExists
          (pickRefAux (conditionalWrite stW req.tripInstanceId ti
            req.passengers.length).2 gen 10 0).1
      · simp [hc, hr]
      · simp [hc, hr]

/-- Claim C1: for every trip instance created with capacity C and
0 ≤ availableSeats ≤ C, along every interleaved history of reservation and
cancellation steps, the sum of passenger counts over the confirmed
(non-cancelled) bookings referencing it never exceeds C, availableSeats
always stays within [0, capacity], and the version counter strictly
increases on every successful mutation. -/
theorem C1_capacity_invariant (ti : TripInstance)
    (h0 : 0 ≤ ti.availableSeats) (h1 : ti.availableSeats ≤ ti.capacity)
    (s : SysState) (hr : Reachable (initState ti) s) :
    (confirmedSeats s.bookings : Int) ≤ ti.capacity
    ∧ 0 ≤ s.inst.availableSeats
    ∧ s.inst.availableSeats ≤ s.inst.capacity
    ∧ (∀ s1, Step s s1 → s.inst.version < s1.inst.version) := by
  have hinv := inv_reachable (inv_init ti h0 h1) hr
  refine ⟨?_, hinv.seats_nonneg, ?_, fun s1 hs => step_version_lt hs⟩
  · have h2 := hinv.seats_booked
    have h3 := hinv.seats_nonneg
    omega
  · have h2 := hinv.seats_booked
    have h4 := hinv.cap_eq
    have h5 : (0 : Int) ≤ (confirmedSeats s.bookings : Int) := Int.natCast_nonneg _
    omega

/-- Witness for C1 at a concrete departure and the initial history. -/
theorem C1_capacity_invariant_witness :
    (confirmedSeats (initState exInst).bookings : Int) ≤ exInst.capacity
    ∧ 0 ≤ (initState exInst).inst.availableSeats
    ∧ (initState exInst).inst.availableSeats ≤ (initState exInst).inst.capacity
    ∧ (∀ s1, Step (initState exInst) s1 →
        (initState exInst).inst.version < s1.inst.version) :=
  C1_capacity_invariant exInst (by decide) (by decide) (initState exInst) Reachable.refl

/-- Claim C8 (amended): every reference generateBookingRef produces is a
6-character code over the alphabet ABCDEFGHJKLMNPQRSTUVWXYZ23456789, which
has 32 symbols (not 33 as the claim states) and excludes the visually
ambiguous characters 0, O, 1, I. -/
theorem C8_reference_format (rand : Nat → Nat) :
    (generateBookingRef rand).length = 6
    ∧ (∀ c ∈ (generateBookingRef rand).data, c ∈ refChars.data)
    ∧ refChars.length = 32
    ∧ ('0' ∉ refChars.data ∧ 'O' ∉ refChars.data
        ∧ '1' ∉ refChars.data ∧ 'I' ∉ refChars.data) := by
  refine ⟨?_, ?_, by decide, by decide⟩
  · have h : (generateBookingRef rand).length
        = ((List.range 6).map
            (fun i => refChars.data.getD (rand i % refChars.data.length) 'A')).length :=
      rfl
    rw [h, List.length_map, List.length_range]
  · intro c hc
    simp only [generateBookingRef] at hc
    rcases List.mem_map.mp hc with ⟨i, _, rfl⟩
    exact getD_mem _ _ _ (Nat.mod_lt _ (by decide))

/-- Counterexample to C8 as stated: the alphabet named by the claim has 32
symbols, not 33. -/
theorem C8_alphabet_not_33 : refChars.length = 32 ∧ refChars.length ≠ 33 := by
  constructor <;> decide

/-- Claim C10: every request body the booking schema rejects is answered
with a 400 Invalid-request failure before any database operation, leaving
the store unchanged; empty passenger lists, blank trip-instance ids,
invalid contact emails and empty contact phones are all rejected. -/
theorem C10_validation_side_effect_free (emailOk : String → Bool)
    (att : Nat → Store → Except TxError (Store × BookingRec) × List DbOp)
    (req : BookingReq) (st : Store) :
    (validBookingReq emailOk req = false →
      POST emailOk att req st
        = ({ status := 400, success := false, error := some "Invalid request",
             bookingRef := none }, st, []))
    ∧ (req.passengers = [] → validBookingReq emailOk req = false)
    ∧ (req.tripInstanceId = "" → validBookingReq emailOk req = false)
    ∧ (emailOk req.contactEmail = false → validBookingReq emailOk req = false)
    ∧ (req.contactPhone = "" → validBookingReq emailOk req = false) := by
  refine ⟨?_, ?_, ?_, ?_, ?_⟩
  · intro hv
    simp [POST, hv]
  · intro hp
    simp [validBookingReq, hp]
  · intro hp
    simp [validBookingReq, hp]
  · intro hp
    simp [validBookingReq, hp]
  · intro hp
    simp [validBookingReq, hp]

/-- Witness for C10: a request with an empty passengers array is answered
with the 400 response and the store is untouched. -/
theorem C10_validation_witness :
    POST emailOkAll attConflict exReqNoPass exStore
      = ({ status := 400, success := false, error := some "Invalid request",
           bookingRef := none }, exStore, []) :=
  (C10_validation_side_effect_free emailOkAll attConflict exReqNoPass exStore).1
    (by decide)

/-- The retry loop never exits with `booking` still null when it starts
with a positive retries budget: `retries` is only decremented while greater
than 1, so the loop always ends in a committed booking or a rethrown
error. -/
theorem bookingLoop_ne_none
    (att : Nat → Store → Except TxError (Store × BookingRec) × List DbOp) :
    ∀ (r i : Nat) (st : Store), 0 < r →
    (bookingLoop att i r st).1 ≠ Sum.inl none := by
  intro r
  induction r with
  | zero =>
    intro i st h
    omega
  | succ r ih =>
    intro i st _
    rw [bookingLoop]
    rcases hatt : att i st with ⟨res0, ops0⟩
    cases res0 with
    | ok p =>
      obtain ⟨st2, b⟩ := p
      simp
    | error e =>
      by_cases hcond : e = TxError.concurrentModification ∧ 0 < r
      · rcases hrec : bookingLoop att (i + 1) r st with ⟨res1, st2, ops1, ds1⟩
        have hne := ih (i + 1) st hcond.2
        rw [hrec] at hne
        simp only [if_pos hcond, hrec]
        simpa using hne
      · simp only [if_neg hcond]
        simp

/-- Claim C4 (code bug): when every allowed attempt ends in the version
conflict, the handler rethrows the internal CONCURRENT_MODIFICATION error
after the third conflict, so the caller receives a 500 carrying the raw
internal signal instead of the 409 try-again Contention response, whose
branch is unreachable for every attempt sequence (since `retries` is only
decremented while greater than 1 and thus never reaches 0). -/
theorem C4_conflict_exhaustion_surfaces_internal_signal :
    POST emailOkAll attConflict exReq exStore
      = ({ status := 500, success := false,
           error := some "CONCURRENT_MODIFICATION", bookingRef := none },
         exStore, [])
    ∧ (∀ (att : Nat → Store → Except TxError (Store × BookingRec) × List DbOp)
        (st : Store), (bookingLoop att 0 3 st).1 ≠ Sum.inl none) :=
  ⟨by decide, fun att st => bookingLoop_ne_none att 3 0 st (by omega)⟩

/-- Claim C2: a single reservation attempt fails NotFound when the departure
is missing, Unavailable when it is not active, and InsufficientCapacity
(carrying the remaining count) when availableSeats < passengerCount;
otherwise the conditional write decrements availableSeats by exactly the
passenger count and increments version by exactly 1 precisely when the
stored version still equals the version read at the start of the attempt,
and the concurrent-modification signal is raised exactly when the
conditional write affects zero records. -/
theorem C2_single_attempt (gen : Nat → String) (req : BookingReq) (stR stW : Store) :
    (stR.findInstance req.tripInstanceId = none →
      (txAttempt gen req stR stW).1 = Except.error TxError.tripNotFound)
    ∧ (∀ ti, stR.findInstance req.tripInstanceId = some ti →
        ti.status ≠ TIStatus.active →
        (txAttempt gen req stR stW).1 = Except.error TxError.tripUnavailable)
    ∧ (∀ ti, stR.findInstance req.tripInstanceId = some ti →
        ti.status = TIStatus.active →
        ti.availableSeats < (req.passengers.length : Int) →
        (txAttempt gen req stR stW).1
          = Except.error (TxError.insufficientSeats ti.availableSeats))
    ∧ (∀ ti, readAndCheck stR req.tripInstanceId req.passengers.length = Except.ok ti →
        ((∀ cur, stW.findInstance req.tripInstanceId = some cur →
            cur.version = ti.version →
            conditionalWrite stW req.tripInstanceId ti req.passengers.length
              = (1, stW.setInstance req.tripInstanceId
                  (writeData cur ti req.passengers.length)))
          ∧ (∀ cur, stW.findInstance req.tripInstanceId = some cur →
              cur.version ≠ ti.version →
              conditionalWrite stW req.tripInstanceId ti req.passengers.length
                = (0, stW))
          ∧ (stW.findInstance req.tripInstanceId = none →
              conditionalWrite stW req.tripInstanceId ti req.passengers.length
                = (0, stW))
          ∧ (∀ cur k, (writeData cur ti k).availableSeats
                = ti.availableSeats - (k : Int)
              ∧ (writeData cur ti k).version = ti.version + 1)
          ∧ ((txAttempt gen req stR stW).1 = Except.error TxError.concurrentModification
              ↔ (conditionalWrite stW req.tripInstanceId ti
                  req.passengers.length).1 = 0))) := by
  refine ⟨?_, ?_, ?_, ?_⟩
  · intro h
    simp [txAttempt, readAndCheck, h]
  · intro ti hti hstat
    simp [txAttempt, readAndCheck, hti, hstat]
  · intro ti hti hstat hlt
    simp [txAttempt, readAndCheck, hti, hstat, hlt]
  · intro ti hok
    refine ⟨?_, ?_, ?_, ?_, ?_⟩
    · intro cur hcur hv
      simp [conditionalWrite, hcur, hv]
    · intro cur hcur hv
      simp [conditionalWrite, hcur, hv]
    · intro h
      simp [conditionalWrite, h]
    · intro cur k
      exact ⟨rfl, rfl⟩
    · simp only [txAttempt, hok]
      by_cases hc :
          (conditionalWrite stW req.tripInstanceId ti req.passengers.length).1 = 0
      · simp [hc]
      · by_cases hr :
            (conditionalWrite stW req.tripInstanceId ti req.passengers.length).2.refExists
              (pickRefAux (conditionalWrite stW req.tripInstanceId ti
                req.passengers.length).2 gen 10 0).1 = true
        · simp [hc, hr]
        · simp [hc, hr]

/-- Witness for C2: against an empty store the attempt reports the missing
departure. -/
theorem C2_single_attempt_witness :
    (txAttempt exGen exReq exStoreEmpty exStoreEmpty).1
      = Except.error TxError.tripNotFound :=
  (C2_single_attempt exGen exReq exStoreEmpty exStoreEmpty).1 (by decide)

/-- Claim C3: only the concurrent-modification conflict is retried, each
retry waits the fixed 100ms delay (not exponential), at most 3 attempts run
in total, every attempt re-invokes the whole transaction starting from a
fresh inventory read, and a non-conflict error ends the loop immediately
after the attempt that produced it. -/
theorem C3_retry_policy
    (att : Nat → Store → Except TxError (Store × BookingRec) × List DbOp)
    (st : Store) (res : Option BookingRec ⊕ TxError) (st1 : Store)
    (ops : List DbOp) (ds : List Nat)
    (hL : bookingLoop att 0 3 st = (res, st1, ops, ds)) :
    ds.length ≤ 2
    ∧ (∀ d ∈ ds, d = 100)
    ∧ (∀ j, j < ds.length → (att j st).1 = Except.error TxError.concurrentModification)
    ∧ (∀ e, res = Sum.inr e → (att ds.length st).1 = Except.error e)
    ∧ (res = Sum.inr TxError.concurrentModification → ds.length = 2)
    ∧ (∀ gen req stR stW, List.head? (txAttempt gen req stR stW).2
        = some (DbOp.readInstance req.tripInstanceId)) := by
  obtain ⟨h1, h2, h3, h4, h5, _⟩ := bookingLoop_spec att 3 0 st res st1 ops ds hL
  refine ⟨h1, h2, ?_, ?_, h5, fun gen req stR stW => txAttempt_ops_head gen req stR stW⟩
  · intro j hj
    simpa using h3 j hj
  · intro e he
    simpa using h4 e he

/-- Witness for C3: three straight conflicts run exactly three attempts with
two 100ms delays, and the error of the final attempt is the one rethrown. -/
theorem C3_retry_policy_witness :
    (attConflict 2 exStore).1 = Except.error TxError.concurrentModification :=
  (C3_retry_policy attConflict exStore (Sum.inr TxError.concurrentModification)
    exStore [] [100, 100] (by decide)).2.2.2.1 TxError.concurrentModification rfl

/-- Counterexample to C5 as stated: a reservation request against a
cancelled departure with availableSeats = 0 fails with the Unavailable
error, not with InsufficientCapacity. -/
theorem C5_zero_seats_not_insufficient :
    (txBody exGen exReq exStoreZero).1 = Except.error TxError.tripUnavailable
    ∧ TxError.tripUnavailable ≠ TxError.insufficientSeats 0 := by
  exact ⟨rfl, by decide⟩

/-- Claim C5 (amended): every booking attempt that fails at any step leaves
the stored state exactly as it was before the attempt; and a reservation
request for at least one passenger against an active instance with
availableSeats = 0 always fails with InsufficientCapacity (a non-active
instance fails earlier with Unavailable). -/
theorem C5_atomicity (emailOk : String → Bool)
    (att : Nat → Store → Except TxError (Store × BookingRec) × List DbOp)
    (req : BookingReq) (st : Store) :
    ((POST emailOk att req st).1.success = false → (POST emailOk att req st).2.1 = st)
    ∧ (∀ gen ti, st.findInstance req.tripInstanceId = some ti →
        ti.status = TIStatus.active → ti.availableSeats = 0 →
        1 ≤ req.passengers.length →
        (txBody gen req st).1 = Except.error (TxError.insufficientSeats 0)) := by
  constructor
  · intro hfail
    by_cases hv : validBookingReq emailOk req = true
    · rcases hL : bookingLoop att 0 3 st with ⟨res, st1, ops, ds⟩
      obtain ⟨_, _, _, _, _, h6⟩ := bookingLoop_spec att 3 0 st res st1 ops ds hL
      have hpost : POST emailOk att req st = (responseOf res, st1, ops) := by
        simp [POST, hv, hL]
      rw [hpost] at hfail ⊢
      cases res with
      | inl ob =>
        cases ob with
        | none =>
          exact h6 (by intro b hb; simp at hb)
        | some b => simp [responseOf] at hfail
      | inr e =>
        exact h6 (by intro b hb; simp at hb)
    · have hv2 : validBookingReq emailOk req = false := by simpa using hv
      simp [POST, hv2]
  · intro gen ti hti hstat hseats hk
    have hlt : ti.availableSeats < (req.passengers.length : Int) := by
      rw [hseats]
      omega
    have hres := (C2_single_attempt gen req st st).2.2.1 ti hti hstat hlt
    rw [txBody, hres, hseats]

/-- Witness for C5: an active departure with zero seats rejects a
one-passenger request with InsufficientCapacity, remaining count 0. -/
theorem C5_atomicity_witness :
    (txBody exGen exReq exStoreZeroAct).1
      = Except.error (TxError.insufficientSeats 0) :=
  (C5_atomicity emailOkAll attConflict exReq exStoreZeroAct).2 exGen exInstZeroAct
    (by decide) rfl rfl (by decide)

/-- Counterexample to C6 as stated: a successful booking transaction issues
its creation with no re-read of the inventory row between the conditional
update and the booking creation. -/
theorem C6_no_recheck_counterexample :
    exceptOk (txBody exGen exReq exStore).1 = true
    ∧ ((txBody exGen exReq exStore).2).any (fun o => o.isCreate) = true
    ∧ reverifyBetween (txBody exGen exReq exStore).2 = false := by
  exact ⟨by decide, by decide, by decide⟩

/-- Claim C6 (amended): after the conditional seat decrement succeeds, the
Booking record and its Passenger child records are created inside the same
atomic transaction directly, with no re-verification read of the inventory
row between the conditional update and the booking creation. -/
theorem C6_booking_created_without_reverification (gen : Nat → String)
    (req : BookingReq) (stR stW : Store) :
    reverifyBetween (txAttempt gen req stR stW).2 = false := by
  rcases hrc : readAndCheck stR req.tripInstanceId req.passengers.length with e | ti
  · simp [txAttempt, hrc, reverifyBetween, afterUpdate, beforeCreate, DbOp.isUpdate]
  · simp only [txAttempt, hrc]
    by_cases hc :
        (conditionalWrite stW req.tripInstanceId ti req.passengers.length).1 = 0
    · simp [hc, reverifyBetween, afterUpdate, beforeCreate, DbOp.isUpdate]
    · by_cases hr :
          (conditionalWrite stW req.tripInstanceId ti req.passengers.length).2.refExists
            (pickRefAux (conditionalWrite stW req.tripInstanceId ti
              req.passengers.length).2 gen 10 0).1 = true
      · simp only [hc, hr]
        simp only [if_neg hc, if_pos rfl, ite_true, ite_false]
        exact reverifyBetween_shape _ _ _ _
          (pickRefAux_ops (conditionalWrite stW req.tripInstanceId ti
            req.passengers.length).2 gen 10 0)
      · simp only [hc, hr]
        simp only [if_neg hc, ite_true, ite_false]
        exact reverifyBetween_shape _ _ _ _
          (pickRefAux_ops (conditionalWrite stW req.tripInstanceId ti
            req.passengers.length).2 gen 10 0)

/-- Counterexample to C7 as stated: when all ten checked candidates collide,
the loop is not a fatal condition - the transaction proceeds with the
eleventh, unchecked candidate and the booking succeeds. -/
theorem C7_exhaustion_not_fatal :
    ((List.range 10).all (fun a => exStoreColl.refExists (gen7 a))) = true
    ∧ (pickRefAux exStoreColl gen7 10 0).1 = "BBBBBB"
    ∧ exceptOk (txBody gen7 exReq exStoreColl).1 = true := by
  exact ⟨by decide, by decide, by decide⟩

/-- Claim C7 (amended): no two bookings ever share a bookingRef (the store's
unique index admits a creation only with a reference no existing booking
carries, and along every history the references stay pairwise distinct); the
generator checks up to ten candidates, regenerating on collision, so its
result can still collide only when all ten checked candidates collided, in
which case the transaction proceeds with the final unchecked candidate and a
surviving collision aborts the transaction with the store's
unique-constraint violation, surfaced as a 500 internal error rather than a
user-facing business failure. -/
theorem C7_reference_uniqueness :
    (∀ ti : TripInstance, 0 ≤ ti.availableSeats → ti.availableSeats ≤ ti.capacity →
      ∀ s, Reachable (initState ti) s →
        (s.bookings.map (fun b => b.bookingRef)).Nodup)
    ∧ (∀ (st : Store) (gen : Nat → String),
        st.refExists (pickRefAux st gen 10 0).1 = true →
        ∀ j, j < 10 → st.refExists (gen j) = true)
    ∧ (∀ (gen : Nat → String) (req : BookingReq) (stR stW st1 : Store)
        (b : BookingRec) (ops : List DbOp),
        txAttempt gen req stR stW = (Except.ok (st1, b), ops) →
        stW.refExists b.bookingRef = false)
    ∧ responseOf (Sum.inr TxError.uniqueRefViolation)
        = { status := 500, success := false,
            error := some "Unique constraint failed on the fields: (bookingRef)",
            bookingRef := none } := by
  refine ⟨?_, ?_, ?_, rfl⟩
  · intro ti h0 h1 s hr
    exact (inv_reachable (inv_init ti h0 h1) hr).refs_nodup
  · intro st gen h j hj
    exact pickRefAux_collision st gen 10 0 h j (Nat.zero_le j) (by omega)
  · intro gen req stR stW st1 b ops h
    rcases hrc : readAndCheck stR req.tripInstanceId req.passengers.length with e | ti
    · simp [txAttempt, hrc] at h
    · simp only [txAttempt, hrc] at h
      by_cases hc :
          (conditionalWrite stW req.tripInstanceId ti req.passengers.length).1 = 0
      · simp [hc] at h
      · by_cases hre :
            (conditionalWrite stW req.tripInstanceId ti
              req.passengers.length).2.refExists
              (pickRefAux (conditionalWrite stW req.tripInstanceId ti
                req.passengers.length).2 gen 10 0).1 = true
        · simp [hc, hre] at h
        · simp only [hc, hre, ite_false, ite_true, if_neg, Bool.false_eq_true,
            Prod.mk.injEq, Except.ok.injEq] at h
          obtain ⟨⟨hst1, hb⟩, hops⟩ := h
          have hbooks := conditionalWrite_bookings stW req.tripInstanceId ti
            req.passengers.length
          have heq := refExists_eq_of_bookings hbooks
            ((pickRefAux (conditionalWrite stW req.tripInstanceId ti
              req.passengers.length).2 gen 10 0).1)
          have hre2 :
              (conditionalWrite stW req.tripInstanceId ti
                req.passengers.length).2.refExists
                ((pickRefAux (conditionalWrite stW req.tripInstanceId ti
                  req.passengers.length).2 gen 10 0).1) = false := by
            simpa using hre
          rw [← hb]
          show stW.refExists (pickRefAux (conditionalWrite stW req.tripInstanceId ti
            req.passengers.length).2 gen 10 0).1 = false
          rw [← heq]
          exact hre2

/-- Witness for C7: a store in which every generated candidate collides
keeps colliding after the ten checks. -/
theorem C7_reference_uniqueness_witness :
    exStoreColl.refExists (exGen 5) = true :=
  C7_reference_uniqueness.2.1 exStoreColl exGen (by decide) 5 (by decide)

/-- Claim C9 (spec-modelled): cancelling a confirmed booking with N
passengers is a legal mutation that marks the booking cancelled, stamps the
cancellation time, increases the owning departure's availableSeats by
exactly N and strictly increases its version, all in one atomic step; a
subsequent reservation can then succeed for up to the reclaimed capacity,
and a reservation followed by its cancellation restores availableSeats to
its prior value. -/
theorem C9_cancellation_symmetry (s : SysState) (l1 l2 : List BookingRec)
    (b : BookingRec) (t : Nat)
    (hsplit : s.bookings = l1 ++ b :: l2) (hconf : b.status = BStatus.confirmed) :
    Step s (applyCancel s l1 b l2 t)
    ∧ (applyCancel s l1 b l2 t).inst.availableSeats
        = s.inst.availableSeats + (b.passengers.length : Int)
    ∧ s.inst.version < (applyCancel s l1 b l2 t).inst.version
    ∧ (applyCancel s l1 b l2 t).bookings = l1 ++ cancelMark b t :: l2
    ∧ (cancelMark b t).status = BStatus.cancelled
    ∧ (cancelMark b t).cancelledAt = some t
    ∧ (∀ b2 : BookingRec, b2.status = BStatus.confirmed →
        1 ≤ b2.passengers.length →
        (b2.passengers.length : Int) ≤ (applyCancel s l1 b l2 t).inst.availableSeats →
        (applyCancel s l1 b l2 t).inst.status = TIStatus.active →
        (∀ b3 ∈ (applyCancel s l1 b l2 t).bookings, b3.bookingRef ≠ b2.bookingRef) →
        Step (applyCancel s l1 b l2 t)
          (applyReserve (applyCancel s l1 b l2 t) (applyCancel s l1 b l2 t).inst b2))
    ∧ (∀ (b2 : BookingRec) (t2 : Nat),
        (applyCancel (applyReserve s s.inst b2) [] b2 s.bookings t2).inst.availableSeats
          = s.inst.availableSeats) := by
  refine ⟨Step.cancel s l1 b l2 t hsplit hconf, rfl, by simp [applyCancel], rfl,
    rfl, rfl, ?_, ?_⟩
  · intro b2 h1 h2 h3 h4 h5
    exact Step.reserve (applyCancel s l1 b l2 t) (applyCancel s l1 b l2 t).inst b2
      (by simp [applyCancel]) h4 h2 h3 rfl h1 h5
  · intro b2 t2
    simp [applyReserve, applyCancel]

/-- Witness for C9 at a concrete one-booking departure state. -/
theorem C9_cancellation_symmetry_witness :
    Step exSys (applyCancel exSys [] exBookingA [] 7) :=
  (C9_cancellation_symmetry exSys [] [] exBookingA 7 rfl rfl).1

end Landline
